import Mathlib

/-!
Verification of the StochasticTree BART/XBART sampling core.

This file gives a shallow embedding, in Lean 4, of the pieces of the
repository that the specification's claims are about:

* the grow-move Metropolis-Hastings clipping and proposal-probability
  arithmetic of `MCMCTreeSampler::GrowMCMC` (`sampler.h`),
* the split-range scan `VarSplitRange` (`sampler.h`),
* the cutpoint enumeration of `GFRTreeSampler::Cutpoints` (`sampler.h`),
* the node-queue discipline of `GFRTreeSampler::SampleTree` /
  `GFRTreeSampler::AddSplitToModel` (`sampler.h`),
* the constant-leaf Gaussian log marginal likelihoods (`sampler.h`),
* the leaf-scale inverse-gamma posterior parameters of
  `LeafNodeHomoskedasticVarianceSampler` (`sampler.h`),
* the driver's draw-slot bookkeeping of
  `StochTreeInterface::SampleBARTGaussianRegression` (`interface.cpp`),
* the `SampleNodeMapper` copy constructor (`partition_tracker.h`).

Comparison-only code is embedded over `ℚ` so that concrete runs are
decidable; the marginal-likelihood formulas, which involve `log`, `sqrt`
and real powers, are embedded over `ℝ`.
-/

namespace StochTree

/-! ## Sufficient statistics (constant-mean leaf)

`LeafConstantGaussianSuffStat` carries `(n, sum_y, sum_y_squared)`. -/

/-- Constant-mean sufficient statistic `(n, Σr, Σr²)` as carried by
`LeafConstantGaussianSuffStat` and consumed by the marginal-likelihood
functions in `sampler.h`. -/
structure SuffStat where
  n : ℕ
  sum_y : ℝ
  sum_y_squared : ℝ

/-! ## C6: constant-leaf Gaussian log marginal likelihood

Embeds `NoSplitLogMarginalLikelihood` (`sampler.h:118-132`) and
`SplitLogMarginalLikelihood` (`sampler.h:89-116`).  `std::pow(x, 2.0)`
is embedded as squaring and `std::log(std::sqrt(sigma_sq))` as
`Real.log (Real.sqrt sigma_sq)`. -/

/-- Embedding of `NoSplitLogMarginalLikelihood` (`sampler.h:118-132`):
`-(n*0.5)*log(2π) - n*log(sqrt σ²) + 0.5*log(σ²/(σ²+τn)) - Σy²/(2σ²)
 + τ(Σy)²/(2σ²(σ²+τn))`. -/
noncomputable def NoSplitLogMarginalLikelihood (s : SuffStat) (tau sigma_sq : ℝ) : ℝ :=
  -((s.n : ℝ) * 0.5) * Real.log (2 * Real.pi)
    - (s.n : ℝ) * Real.log (Real.sqrt sigma_sq)
    + 0.5 * Real.log (sigma_sq / (sigma_sq + tau * (s.n : ℝ)))
    - s.sum_y_squared / (2 * sigma_sq)
    + (tau * s.sum_y ^ 2) / (2 * sigma_sq * (sigma_sq + tau * (s.n : ℝ)))

/-- Embedding of `SplitLogMarginalLikelihood` (`sampler.h:89-116`), which
writes the same expression out twice (for the left and the right
sufficient statistic) and returns the sum. -/
noncomputable def SplitLogMarginalLikelihood (l r : SuffStat) (tau sigma_sq : ℝ) : ℝ :=
  (-((l.n : ℝ) * 0.5) * Real.log (2 * Real.pi)
    - (l.n : ℝ) * Real.log (Real.sqrt sigma_sq)
    + 0.5 * Real.log (sigma_sq / (sigma_sq + tau * (l.n : ℝ)))
    - l.sum_y_squared / (2 * sigma_sq)
    + (tau * l.sum_y ^ 2) / (2 * sigma_sq * (sigma_sq + tau * (l.n : ℝ))))
  + (-((r.n : ℝ) * 0.5) * Real.log (2 * Real.pi)
    - (r.n : ℝ) * Real.log (Real.sqrt sigma_sq)
    + 0.5 * Real.log (sigma_sq / (sigma_sq + tau * (r.n : ℝ)))
    - r.sum_y_squared / (2 * sigma_sq)
    + (tau * r.sum_y ^ 2) / (2 * sigma_sq * (sigma_sq + tau * (r.n : ℝ))))

/-- The specification's formula for the constant-leaf log marginal
likelihood, stated in terms of the residual standard deviation `σ`
(spec §4.6): `−(n/2)·log(2π) − n·log σ + ½·log(σ²/(σ² + τ·n))
− Σr²/(2σ²) + τ·(Σr)²/(2σ²(σ² + τ·n))`. -/
noncomputable def specLogMarginalLikelihood (s : SuffStat) (tau sigma : ℝ) : ℝ :=
  -((s.n : ℝ) / 2) * Real.log (2 * Real.pi)
    - (s.n : ℝ) * Real.log sigma
    + (1 / 2) * Real.log (sigma ^ 2 / (sigma ^ 2 + tau * (s.n : ℝ)))
    - s.sum_y_squared / (2 * sigma ^ 2)
    + (tau * s.sum_y ^ 2) / (2 * sigma ^ 2 * (sigma ^ 2 + tau * (s.n : ℝ)))

/-! ## C1: grow-move Metropolis-Hastings clipping

`GrowMCMC` (`sampler.h:318-338`) computes `log_mh_ratio` and then,
under the comment `// Threshold at 0`, executes
`if (log_mh_ratio > 1) { log_mh_ratio = 1; }`.  The accept test is
`log_acceptance_prob <= log_mh_ratio`. -/

/-- Embedding of the clip applied to the grow-move log MH ratio
(`sampler.h:323-326`): the ratio is replaced by `1` when it exceeds
`1`, and kept otherwise. -/
def growClip (log_alpha : ℚ) : ℚ :=
  if log_alpha > 1 then 1 else log_alpha

/-- The clip the specification prescribes for the grow move ("Clip
`log α` at 0"): the value used for the accept test is
`min(log_mh_ratio, 0)`. -/
def growClipSpec (log_alpha : ℚ) : ℚ :=
  min log_alpha 0

/-- Embedding of the grow-move accept test (`sampler.h:330-337`): the
proposal is accepted iff `log U ≤` the clipped log MH ratio. -/
def growAccept (log_u log_alpha : ℚ) : Bool :=
  log_u ≤ growClip log_alpha

/-! ## C3: grow-move proposal probabilities

`GrowMCMC` (`sampler.h:313-316`) declares `int num_leaves` and
`int num_leaf_parents` and computes `double p_leaf = 1/num_leaves;`
and `double p_leaf_parent = 1/(num_leaf_parents+1);`.  Both divisions
are C++ `int` divisions (truncating), whose result is then converted
to `double`. -/

/-- Embedding of `double p_leaf = 1/num_leaves;` (`sampler.h:315`): the
division `1/num_leaves` happens in `int` arithmetic (truncating
division on naturals, both counts being positive) and the truncated
quotient is then stored in a `double`. -/
def pLeaf (num_leaves : ℕ) : ℚ :=
  ((1 / num_leaves : ℕ) : ℚ)

/-- Embedding of `double p_leaf_parent = 1/(num_leaf_parents+1);`
(`sampler.h:316`), again an `int` division. -/
def pLeafParent (num_leaf_parents : ℕ) : ℚ :=
  ((1 / (num_leaf_parents + 1) : ℕ) : ℚ)

/-! ## C7: leaf-scale inverse-gamma posterior

`LeafNodeHomoskedasticVarianceSampler` (`sampler.h:1273-1301`):
`PosteriorShape` returns `(a/2.0) + num_leaves` and `PosteriorScale`
returns `(b/2.0) + mu_sq` (the local `a` it reads is never used). -/

/-- Embedding of `LeafNodeHomoskedasticVarianceSampler::PosteriorShape`
(`sampler.h:1277-1281`): `(a/2.0) + num_leaves` with `num_leaves` the
total leaf count of the ensemble. -/
noncomputable def leafScalePosteriorShape (a : ℝ) (num_leaves : ℕ) : ℝ :=
  a / 2 + (num_leaves : ℝ)

/-- Embedding of `LeafNodeHomoskedasticVarianceSampler::PosteriorScale`
(`sampler.h:1282-1287`): the function reads the prior shape `a` but
returns `(b/2.0) + mu_sq`, where `mu_sq` is the ensemble's sum of
squared leaf values. -/
noncomputable def leafScalePosteriorScale (a b mu_sq : ℝ) : ℝ :=
  b / 2 + mu_sq

/-! ## C2: `VarSplitRange`

`VarSplitRange` (`sampler.h:24-45`) initializes
`var_min = std::numeric_limits<double>::max()` and
`var_max = std::numeric_limits<double>::min()` — the latter being the
smallest *positive* normal double, `2^(-1022)` — and then, for each
observation in the leaf, runs
`if (v < var_min) var_min = v; else if (v > var_max) var_max = v;`.
Feature values are embedded as rationals (every finite double is a
rational) so the scan is decidable. -/

/-- `std::numeric_limits<double>::max()`, the largest finite double. -/
def dblMax : ℚ := (2 - 2 ^ (-52 : ℤ)) * 2 ^ (1023 : ℕ)

/-- `std::numeric_limits<double>::min()`, the smallest positive normal
double, `2^(-1022)`.  Note this is positive, not the most negative
double. -/
def dblMin : ℚ := 2 ^ (-1022 : ℤ)

/-- One iteration of the `VarSplitRange` scan (`sampler.h:39-43`):
`if (feature_value < var_min) var_min = feature_value;
 else if (feature_value > var_max) var_max = feature_value;`. -/
def varSplitStep (acc : ℚ × ℚ) (v : ℚ) : ℚ × ℚ :=
  if v < acc.1 then (v, acc.2)
  else if v > acc.2 then (acc.1, v)
  else acc

/-- Embedding of `VarSplitRange` (`sampler.h:24-45`): scan the leaf's
feature-column values with `varSplitStep` starting from
`(var_min, var_max) = (dblMax, dblMin)` and return the final
`(var_min, var_max)` pair. -/
def VarSplitRange (vals : List ℚ) : ℚ × ℚ :=
  vals.foldl varSplitStep (dblMax, dblMin)

/-! ## C9: driver draw-slot bookkeeping

`StochTreeInterface` (`interface.cpp:35-43`) allocates
`model_draws_ = std::vector<std::unique_ptr<ModelDraw>>(config_.num_samples)`,
and `SampleBARTGaussianRegression` (`interface.cpp:309-318, 408-413`)
starts with `model_iter = prev_model_iter = 0` and, at the end of
iteration `i`, advances them only once `i >= num_burnin`. -/

/-- Embedding of the driver configuration fields used by the draw
bookkeeping (`config_.num_samples`, `config_.num_burnin`). -/
structure DriverConfig where
  numSamples : ℕ
  numBurnin : ℕ

/-- Embedding of the `model_draws_` allocation in the
`StochTreeInterface` constructor (`interface.cpp:40-43`): the vector is
sized `config_.num_samples`. -/
def modelDrawSlots (cfg : DriverConfig) : ℕ :=
  cfg.numSamples

/-- Embedding of the end-of-iteration index update
(`interface.cpp:408-412`): if `i >= num_burnin` then
`prev_model_iter = model_iter; model_iter += 1`, else no change.  The
state is the pair `(model_iter, prev_model_iter)`. -/
def driverStep (numBurnin i : ℕ) (st : ℕ × ℕ) : ℕ × ℕ :=
  if numBurnin ≤ i then (st.1 + 1, st.1) else st

/-- The `(model_iter, prev_model_iter)` state at the *start* of
iteration `i` of the sweep loop (`interface.cpp:309-311`), beginning
from `(0, 0)`. -/
def driverState (numBurnin : ℕ) : ℕ → ℕ × ℕ
  | 0 => (0, 0)
  | i + 1 => driverStep numBurnin i (driverState numBurnin i)

/-! ## C4: XBART cutpoint enumeration, no-split entry

`GFRTreeSampler::Cutpoints` (`sampler.h:731-841`) walks every feature
and every candidate cutpoint; each candidate passing the
`valid_split` test pushes its split log marginal likelihood onto
`log_cutpoint_evaluations` and increments `num_cutpoints`
(`sampler.h:804-817`).  After the loop (`sampler.h:821-841`) it
computes `bart_prior_no_split_adj = log((1+d)^β/α − 1)`, adds
`log(num_cutpoints)` unless `num_cutpoints == 0`, adds the result to
the parent's no-split log marginal likelihood, pushes that entry last,
and reports `valid_cutpoint_count = num_cutpoints`.

The candidate enumeration itself (`CutpointGridContainer`, the
`SampleGreaterThan` validity test) lives outside `src/`; candidates
are therefore abstracted as an ordered list of
`(valid, split_log_ml)` pairs, which is exactly what the loop consumes
from them. -/

/-- One candidate of the loop body (`sampler.h:804-817`): if the
candidate passed the `valid_split` test, push its split log marginal
likelihood and increment `num_cutpoints`; otherwise skip it. -/
def cutpointStep (acc : List ℝ × ℕ) (c : Bool × ℝ) : List ℝ × ℕ :=
  if c.1 then (acc.1 ++ [c.2], acc.2 + 1) else acc

/-- Embedding of the candidate loop of `GFRTreeSampler::Cutpoints`
(`sampler.h:775-819`): run `cutpointStep` over the candidates in
enumeration order, starting from the cleared vectors and
`num_cutpoints = 0`.  Returns
`(log_cutpoint_evaluations, num_cutpoints)` as they stand when the
loop ends. -/
def cutpointLoop (cands : List (Bool × ℝ)) : List ℝ × ℕ :=
  cands.foldl cutpointStep ([], 0)

/-- Embedding of the `bart_prior_no_split_adj` computation
(`sampler.h:827-835`): `log((1+node_depth)^β/α − 1)`, plus
`log(num_cutpoints)` unless `num_cutpoints == 0`. -/
noncomputable def bartPriorNoSplitAdj (alpha beta : ℝ) (node_depth num_cutpoints : ℕ) : ℝ :=
  if num_cutpoints = 0 then
    Real.log ((1 + (node_depth : ℝ)) ^ beta / alpha - 1)
  else
    Real.log ((1 + (node_depth : ℝ)) ^ beta / alpha - 1) + Real.log (num_cutpoints : ℝ)

/-- Embedding of `GFRTreeSampler::Cutpoints` (`sampler.h:731-841`)
restricted to what it returns through `log_cutpoint_evaluations` and
`valid_cutpoint_count`: run the candidate loop, then append the
no-split entry `NoSplitLogMarginalLikelihood(parent) +
bart_prior_no_split_adj`. -/
noncomputable def Cutpoints (cands : List (Bool × ℝ)) (parent : SuffStat)
    (tau sigma_sq alpha beta : ℝ) (node_depth : ℕ) : List ℝ × ℕ :=
  let s := cutpointLoop cands
  (s.1 ++ [NoSplitLogMarginalLikelihood parent tau sigma_sq +
            bartPriorNoSplitAdj alpha beta node_depth s.2],
    s.2)

/-! ## C5: grow-from-root node-queue discipline

`GFRTreeSampler::SampleTree` (`sampler.h:640-665`) keeps a
`std::deque<node_t> split_queue_` seeded with the root and repeatedly
takes `split_queue_.front()` / `pop_front()` (its own comment reads
"using a stack in place of recursion").  When a split is committed,
`GFRTreeSampler::AddSplitToModel` (`sampler.h:954-956`) executes
`split_queue.push_front(right_node); split_queue.push_front(left_node);`
— the children go to the *front* of the deque, left on top.

Node ids are embedded as root-to-node paths (`false` = left child,
`true` = right child), so a node's depth is its path length; the
realized outcome of the per-node split sampling is abstracted as a
finite binary tree of decisions. -/

/-- Realized split decisions of one grow-from-root pass: `leaf` means
the "no-split" option was drawn at that node, `node l r` means a split
was drawn, with decision subtrees for the two children. -/
inductive SplitTree where
  | leaf : SplitTree
  | node : SplitTree → SplitTree → SplitTree
deriving DecidableEq

/-- Number of nodes of a decision tree (termination measure). -/
def SplitTree.size : SplitTree → ℕ
  | .leaf => 1
  | .node l r => 1 + l.size + r.size

/-- Embedding of the `split_queue_` loop of
`GFRTreeSampler::SampleTree` (`sampler.h:654-664`) together with the
queue update of `AddSplitToModel` (`sampler.h:954-956`): pop the front
node; if its sampled rule is a split, push the right then the left
child onto the *front* (so the queue becomes
`left :: right :: rest`).  Returns the nodes in the order they are
popped, i.e. the order in which split rules are sampled. -/
def gfrOrder : List (List Bool × SplitTree) → List (List Bool)
  | [] => []
  | (p, .leaf) :: rest => p :: gfrOrder rest
  | (p, .node l r) :: rest =>
      p :: gfrOrder ((p ++ [false], l) :: (p ++ [true], r) :: rest)
termination_by q => (q.map (fun e => e.2.size)).sum
decreasing_by
  all_goals simp [SplitTree.size]
  all_goals omega

/-- Depth-first preorder listing of the nodes of a decision tree,
rooted at path `p`. -/
def preorderNodes (p : List Bool) : SplitTree → List (List Bool)
  | .leaf => [p]
  | .node l r =>
      p :: (preorderNodes (p ++ [false]) l ++ preorderNodes (p ++ [true]) r)

/-! ## C10: `SampleNodeMapper` and its copy constructor

`partition_tracker.h:43-91`.  The per-tree, per-observation node ids
live in `std::vector<std::vector<int>> tree_observation_indices_`; the
copy constructor (`partition_tracker.h:55-63`) copies the two counts
and `resize`s the vectors, which value-initializes every entry to `0`,
and never reads `other`'s entries. -/

/-- Embedding of `SampleNodeMapper` (`partition_tracker.h:43-91`): the
node-id table is modelled as a total function from (tree id,
observation id) to the stored `int` node id. -/
structure SampleNodeMapper where
  numTrees : ℕ
  numObservations : ℕ
  treeObservationIndices : ℕ → ℕ → ℤ

/-- Embedding of the `SampleNodeMapper(int, data_size_t)` constructor
(`partition_tracker.h:45-53`): fresh `std::vector<int>` entries are
value-initialized, so every node id starts at `0`. -/
def SampleNodeMapper.make (num_trees num_observations : ℕ) : SampleNodeMapper :=
  { numTrees := num_trees
    numObservations := num_observations
    treeObservationIndices := fun _ _ => 0 }

/-- Embedding of the copy constructor
`SampleNodeMapper(SampleNodeMapper&)` (`partition_tracker.h:55-63`): it
copies `NumTrees()` and `NumObservations()` and `resize`s the index
vectors — value-initializing every entry to `0` — without copying any
entry of `other`. -/
def SampleNodeMapper.copyCtor (other : SampleNodeMapper) : SampleNodeMapper :=
  { numTrees := other.numTrees
    numObservations := other.numObservations
    treeObservationIndices := fun _ _ => 0 }

/-- Embedding of `SampleNodeMapper::GetNodeId`
(`partition_tracker.h:65-69`):
`tree_observation_indices_[tree_id][sample_id]`. -/
def SampleNodeMapper.getNodeId (m : SampleNodeMapper) (sample_id : ℕ) (tree_id : ℕ) : ℤ :=
  m.treeObservationIndices tree_id sample_id

/-- Embedding of `SampleNodeMapper::SetNodeId`
(`partition_tracker.h:71-75`): point update of
`tree_observation_indices_[tree_id][sample_id]`. -/
def SampleNodeMapper.setNodeId (m : SampleNodeMapper) (sample_id : ℕ) (tree_id : ℕ)
    (node_id : ℤ) : SampleNodeMapper :=
  { m with
    treeObservationIndices := fun t s =>
      if t = tree_id then if s = sample_id then node_id else m.treeObservationIndices t s
      else m.treeObservationIndices t s }

end StochTree

namespace StochTree

/-! ## C1 -/

/-- C1: the claim states the grow-move log MH ratio is clipped at 0,
i.e. the value used for the accept test is `min(log_mh_ratio, 0)`.
The code (`sampler.h:324-326`) clips at 1: at `log_mh_ratio = 1/2` the
value used is `1/2`, not `min(1/2, 0) = 0`, contradicting both the
claim and the code's own comment `// Threshold at 0`. -/
theorem growClip_at_one_ne_spec :
    growClip (1 / 2) = 1 / 2 ∧ growClipSpec (1 / 2) = 0 ∧
      growClip (1 / 2) ≠ growClipSpec (1 / 2) := by
  refine ⟨by norm_num [growClip], by norm_num [growClipSpec], ?_⟩
  norm_num [growClip, growClipSpec]

/-! ## C3 -/

/-- C3: the claim states `P(old-leaf) = 1/num_leaves` and
`P(new-leaf-parent) = 1/(num_leaf_parents+1)` are real reciprocals of
the counts.  The code (`sampler.h:315-316`) performs `int` division:
for a tree with `num_leaves = 2` and `num_leaf_parents = 1` it stores
`p_leaf = 0` and `p_leaf_parent = 0` instead of `1/2` and `1/2`. -/
theorem pLeaf_int_division_ne_reciprocal :
    pLeaf 2 = 0 ∧ pLeafParent 1 = 0 ∧
      pLeaf 2 ≠ 1 / (2 : ℚ) ∧ pLeafParent 1 ≠ 1 / ((1 : ℚ) + 1) := by
  refine ⟨by norm_num [pLeaf], by norm_num [pLeafParent], ?_, ?_⟩
  · norm_num [pLeaf]
  · norm_num [pLeafParent]

/-! ## C7 -/

/-- C7: the claim states the leaf-scale posterior scale is
`a_τ·b_τ/2 + Σμ²`.  The code (`sampler.h:1282-1287`) returns
`b/2 + Σμ²`: at `a = 3`, `b = 2`, `Σμ² = 0` it yields `1` while the
claim's formula yields `3`. -/
theorem leafScalePosteriorScale_drops_shape :
    leafScalePosteriorScale 3 2 0 = 1 ∧
      leafScalePosteriorScale 3 2 0 ≠ 3 * 2 / 2 + (0 : ℝ) := by
  constructor
  · norm_num [leafScalePosteriorScale]
  · norm_num [leafScalePosteriorScale]

/-! ## C2 -/

/-- C2: the claim states `VarSplitRange` returns the minimum and
maximum of the leaf's feature column, so in particular
`var_min ≤ var_max`.  On the leaf column `[3, 2, 1]` the code's scan
(`sampler.h:39-43`) only ever takes the `var_min` branch, leaving
`var_max` at its initial value `2^(-1022)`
(`std::numeric_limits<double>::min()`): the returned pair is
`(1, 2^(-1022))`, whose second component is not the maximum `3` and is
smaller than the first component. -/
theorem varSplitRange_wrong_max :
    VarSplitRange [3, 2, 1] = (1, dblMin) ∧ dblMin ≠ 3 ∧
      ¬ (VarSplitRange [3, 2, 1]).1 ≤ (VarSplitRange [3, 2, 1]).2 := by
  have h : VarSplitRange [3, 2, 1] = (1, dblMin) := by
    norm_num [VarSplitRange, varSplitStep, dblMax, dblMin, List.foldl]
  refine ⟨h, by norm_num [dblMin], ?_⟩
  rw [h]
  norm_num [dblMin]

/-! ## C9 -/

/-- Closed form of the driver's `(model_iter, prev_model_iter)` state
at the start of iteration `i`: truncated subtraction keeps both at `0`
throughout burn-in. -/
theorem driverState_eq (b i : ℕ) : driverState b i = (i - b, i - b - 1) := by
  induction i with
  | zero => simp [driverState]
  | succ n ih =>
      simp only [driverState, driverStep, ih]
      split <;> (refine Prod.ext ?_ ?_) <;> simp <;> omega

/-- C9 counterexample: the claim states the draw storage has
`num_burnin + num_samples` slots.  The constructor
(`interface.cpp:40-43`) sizes `model_draws_` to `config_.num_samples`:
with `num_samples = 3` and `num_burnin = 2` it allocates `3` slots,
not `5`. -/
theorem modelDrawSlots_not_burnin_plus_samples :
    modelDrawSlots ⟨3, 2⟩ = 3 ∧ modelDrawSlots ⟨3, 2⟩ ≠ 2 + 3 := by
  refine ⟨rfl, ?_⟩
  norm_num [modelDrawSlots]

/-- C9 amended: the draw storage is a vector of `num_samples` slots
(not `num_burnin + num_samples`); the write index `model_iter` at the
start of sweep `i` equals `i - num_burnin` in truncated subtraction,
so every burn-in sweep (`i < num_burnin`) writes slot `0` in place and
every retained sweep advances the index by one. -/
theorem driver_burnin_slot_bookkeeping (cfg : DriverConfig) (i : ℕ) :
    modelDrawSlots cfg = cfg.numSamples ∧
      (driverState cfg.numBurnin i).1 = i - cfg.numBurnin := by
  refine ⟨rfl, ?_⟩
  rw [driverState_eq]

/-! ## C6 -/

/-- C6: for every constant-mean sufficient statistic and `σ > 0` (with
`σ² = σ^2` the global variance), `NoSplitLogMarginalLikelihood` returns
exactly the specification's closed form
`−(n/2)·log(2π) − n·log σ + ½·log(σ²/(σ² + τ·n)) − Σr²/(2σ²)
 + τ·(Σr)²/(2σ²(σ² + τ·n))`, and `SplitLogMarginalLikelihood l r` is
the sum of that expression evaluated at `l` and at `r`. -/
theorem marginal_likelihood_formulas (s l r : SuffStat) (tau sigma : ℝ)
    (h : 0 < sigma) :
    NoSplitLogMarginalLikelihood s tau (sigma ^ 2) = specLogMarginalLikelihood s tau sigma ∧
      SplitLogMarginalLikelihood l r tau (sigma ^ 2) =
        NoSplitLogMarginalLikelihood l tau (sigma ^ 2) +
          NoSplitLogMarginalLikelihood r tau (sigma ^ 2) := by
  constructor
  · simp only [NoSplitLogMarginalLikelihood, specLogMarginalLikelihood,
      Real.sqrt_sq h.le]
    ring_nf
  · simp only [SplitLogMarginalLikelihood, NoSplitLogMarginalLikelihood]

/-- Witness for C6 at the concrete input `s = l = ⟨1, 0, 0⟩`,
`r = ⟨2, 0, 0⟩`, `τ = 1`, `σ = 1`. -/
theorem marginal_likelihood_formulas_witness :
    0 < (1 : ℝ) ∧
      (NoSplitLogMarginalLikelihood ⟨1, 0, 0⟩ 1 ((1 : ℝ) ^ 2) =
          specLogMarginalLikelihood ⟨1, 0, 0⟩ 1 1 ∧
        SplitLogMarginalLikelihood ⟨1, 0, 0⟩ ⟨2, 0, 0⟩ 1 ((1 : ℝ) ^ 2) =
          NoSplitLogMarginalLikelihood ⟨1, 0, 0⟩ 1 ((1 : ℝ) ^ 2) +
            NoSplitLogMarginalLikelihood ⟨2, 0, 0⟩ 1 ((1 : ℝ) ^ 2)) :=
  ⟨by norm_num,
    marginal_likelihood_formulas ⟨1, 0, 0⟩ ⟨1, 0, 0⟩ ⟨2, 0, 0⟩ 1 1 (by norm_num)⟩

/-! ## C4 -/

/-- The running `num_cutpoints` counter of the cutpoint loop equals the
number of split evaluations pushed so far. -/
theorem cutpointLoop_count_invariant (cands : List (Bool × ℝ)) (l : List ℝ) (n : ℕ)
    (h : n = l.length) :
    (cands.foldl cutpointStep (l, n)).2 = (cands.foldl cutpointStep (l, n)).1.length := by
  induction cands generalizing l n with
  | nil => simpa using h
  | cons c cs ih =>
      simp only [List.foldl_cons, cutpointStep]
      by_cases hc : c.1
      · simp only [hc, if_true]
        exact ih (l ++ [c.2]) (n + 1) (by simp [h])
      · simp only [hc, if_false]
        exact ih l n h

/-- C4: the no-split entry of the XBART cutpoint enumeration is
appended after all split entries (it is the last element, the split
entries being everything before it), its recorded weight equals
`log_ml_no_split(parent) + log((1+d)^β/α − 1) + log(num_valid_cutpoints)`
with the `log(num_valid_cutpoints)` term omitted exactly when the
number of valid cutpoints is zero, and `valid_cutpoint_count` equals
the number of split entries. -/
theorem cutpoints_no_split_entry (cands : List (Bool × ℝ)) (parent : SuffStat)
    (tau sigma_sq alpha beta : ℝ) (d : ℕ) :
    (Cutpoints cands parent tau sigma_sq alpha beta d).1.getLast? =
      some (NoSplitLogMarginalLikelihood parent tau sigma_sq +
        (if (Cutpoints cands parent tau sigma_sq alpha beta d).2 = 0 then
          Real.log ((1 + (d : ℝ)) ^ beta / alpha - 1)
        else
          Real.log ((1 + (d : ℝ)) ^ beta / alpha - 1) +
            Real.log (((Cutpoints cands parent tau sigma_sq alpha beta d).2 : ℝ)))) ∧
    (Cutpoints cands parent tau sigma_sq alpha beta d).1.dropLast = (cutpointLoop cands).1 ∧
    (Cutpoints cands parent tau sigma_sq alpha beta d).2 = (cutpointLoop cands).1.length := by
  refine ⟨?_, ?_, ?_⟩
  · simp [Cutpoints, bartPriorNoSplitAdj, List.getLast?_append_cons]
  · simp [Cutpoints, List.dropLast_concat]
  · simpa [Cutpoints, cutpointLoop] using
      cutpointLoop_count_invariant cands [] 0 rfl

/-! ## C5 -/

/-- C5 counterexample: with realized decisions "split the root, split
its left child, leave everything else a leaf", the embedded queue
discipline samples the nodes in the order root, left, left-left,
left-right, right — the depth-2 node `[false, false]` is sampled
strictly before the depth-1 node `[true]`, so it is false that every
node at depth `d` is sampled before any node at depth `d+1` (the
children are pushed onto the front of the deque, not appended to the
back). -/
theorem gfr_depth_order_violated :
    gfrOrder [([], SplitTree.node (SplitTree.node .leaf .leaf) .leaf)] =
      [[], [false], [false, false], [false, true], [true]] ∧
    ([false, false] : List Bool).length = 2 ∧ ([true] : List Bool).length = 1 ∧
    (gfrOrder [([], SplitTree.node (SplitTree.node .leaf .leaf) .leaf)]).indexOf
        [false, false] <
      (gfrOrder [([], SplitTree.node (SplitTree.node .leaf .leaf) .leaf)]).indexOf
        [true] := by
  have h : gfrOrder [([], SplitTree.node (SplitTree.node .leaf .leaf) .leaf)] =
      [[], [false], [false, false], [false, true], [true]] := by
    simp [gfrOrder]
  refine ⟨h, rfl, rfl, ?_⟩
  rw [h]
  decide

/-- C5 amended: the grow-from-root step processes nodes *depth-first*:
the deque is seeded with the root, nodes are popped from the front,
and when a node is split its left and right children are pushed onto
the front (left on top), so the sampling order is the depth-first
preorder of the realized decision tree — a node's entire left subtree
(arbitrarily deep) is sampled before its right child, not
breadth-first. -/
theorem gfrOrder_eq_preorder (t : SplitTree) :
    ∀ (p : List Bool) (rest : List (List Bool × SplitTree)),
      gfrOrder ((p, t) :: rest) = preorderNodes p t ++ gfrOrder rest := by
  induction t with
  | leaf =>
      intro p rest
      simp [gfrOrder, preorderNodes]
  | node l r ihl ihr =>
      intro p rest
      simp only [gfrOrder, preorderNodes]
      rw [ihl, ihr]
      simp [List.append_assoc]

/-! ## C10 -/

/-- C10: the copy constructor of `SampleNodeMapper` preserves
`NumTrees` and `NumObservations` but value-initializes every
per-observation node id to `0` instead of copying it, so `GetNodeId`
on the copy can differ from `GetNodeId` on the original (witnessed by a
mapper on which `SetNodeId` stored node id `5`). -/
theorem sampleNodeMapper_copyCtor_zeroes :
    (∀ m : SampleNodeMapper,
      m.copyCtor.numTrees = m.numTrees ∧
      m.copyCtor.numObservations = m.numObservations ∧
      ∀ s t, m.copyCtor.getNodeId s t = 0) ∧
    ((SampleNodeMapper.make 1 1).setNodeId 0 0 5).getNodeId 0 0 ≠
      (((SampleNodeMapper.make 1 1).setNodeId 0 0 5).copyCtor).getNodeId 0 0 := by
  constructor
  · intro m
    exact ⟨rfl, rfl, fun s t => rfl⟩
  · simp [SampleNodeMapper.make, SampleNodeMapper.setNodeId, SampleNodeMapper.getNodeId,
      SampleNodeMapper.copyCtor]

end StochTree
